import Mathlib

set_option maxHeartbeats 2000000

/-!
Verification of the British National Grid to latitude/longitude conversion
in src/osgconv.py.

Python floats are modelled by real numbers (exact arithmetic); the Python
expressions `x ** 0.5` and `x ** (3/2)` on a nonnegative base are modelled
by `Real.sqrt x` and `Real.sqrt x ^ 3`.  The unbounded `while` loop at
osgconv.py lines 134-137 is modelled by a fuel-indexed recursion
`footpointGo`: `none` means the stopping condition has not yet been met
after the given number of residual tests (the Python loop would simply keep
running), `some p` is the value of the iterate `prime` at loop exit.  The
source defines no exception of any kind, so the codomain has no error
alternative.
-/

/-- Embeds `parameter_set_1` (osgconv.py lines 15-36): eccentricity squared
and the flattening ratio n, from the semi-major and semi-minor axes.  The
source has no validation and no failure branch. -/
noncomputable def parameter_set_1 (a b : ℝ) : ℝ × ℝ :=
  ((a ^ 2 - b ^ 2) / a ^ 2, (a - b) / (a + b))

/-- Embeds `parameter_set_2` (osgconv.py lines 39-67): the curvature
parameters nu, rho and eta at latitude phi. -/
noncomputable def parameter_set_2 (phi a F e2 : ℝ) : ℝ × ℝ × ℝ :=
  (a * F / Real.sqrt (1 - e2 * Real.sin phi ^ 2),
   a * F * (1 - e2) / Real.sqrt (1 - e2 * Real.sin phi ^ 2) ^ 3,
   a * F / Real.sqrt (1 - e2 * Real.sin phi ^ 2) /
     (a * F * (1 - e2) / Real.sqrt (1 - e2 * Real.sin phi ^ 2) ^ 3) - 1)

/-- Embeds `f_M` (osgconv.py lines 70-99): the four-term meridional arc
series. -/
noncomputable def f_M (phi phi0 n b F : ℝ) : ℝ :=
  b * F * ((1 + n + 5/4*n^2 + 5/4*n^3) * (phi - phi0)
    - (3*n + 3*n^2 + 21/8*n^3) * Real.sin (phi - phi0) * Real.cos (phi + phi0)
    + (15/8 * (n^2 + n^3) * Real.sin (2*(phi - phi0)) * Real.cos (2*(phi + phi0)))
    - (35/24 * n^3 * Real.sin (3*(phi - phi0)) * Real.cos (3*(phi + phi0))))

/-- Python `math.radians`. -/
noncomputable def radians (x : ℝ) : ℝ := x * Real.pi / 180

/-- Python `math.degrees`. -/
noncomputable def degrees (x : ℝ) : ℝ := x * 180 / Real.pi

/-- Semi-major axis bound at osgconv.py line 122. -/
noncomputable def aBNG : ℝ := 6377563.396

/-- Semi-minor axis bound at osgconv.py line 123. -/
noncomputable def bBNG : ℝ := 6356256.909

/-- Easting of the true origin, osgconv.py line 124. -/
noncomputable def E0BNG : ℝ := 400000

/-- Northing of the true origin, osgconv.py line 125. -/
noncomputable def N0BNG : ℝ := -100000

/-- Scale factor on the central meridian, osgconv.py line 128. -/
noncomputable def F0BNG : ℝ := 0.9996012717

/-- Eccentricity squared at the BNG constants, osgconv.py line 130. -/
noncomputable def e2BNG : ℝ := (parameter_set_1 aBNG bBNG).1

/-- Flattening ratio n at the BNG constants, osgconv.py line 130. -/
noncomputable def nBNG : ℝ := (parameter_set_1 aBNG bBNG).2

/-- Latitude of the true origin in radians, osgconv.py lines 126 and 131. -/
noncomputable def phi0BNG : ℝ := radians 49

/-- Longitude of the true origin in radians, osgconv.py lines 127 and 132. -/
noncomputable def lam0BNG : ℝ := radians (-2)

/-- Embeds the `while` loop at osgconv.py lines 134-137.  The state is the
pair (M, prime); the loop exits returning `prime` as soon as the residual
test fails, otherwise it first updates `prime` and then recomputes M by
`f_M`.  `none` means the tolerance was not reached within `fuel` residual
tests; the source loop would simply continue, there is no error branch. -/
noncomputable def footpointGo (N N0 aF phi0 n b F : ℝ) : ℕ → ℝ × ℝ → Option ℝ
  | 0, _ => none
  | fuel + 1, s =>
    if |N - N0 - s.1| < 1e-5 then some s.2
    else
      footpointGo N N0 aF phi0 n b F fuel
        (f_M ((N - N0 - s.1) / aF + s.2) phi0 n b F, (N - N0 - s.1) / aF + s.2)

/-- The latitude correction term `c2` at osgconv.py line 145, as a function
of the already-computed curvature parameters rho, nu, eta and of
tn = tan (footpoint latitude).  The source multiplies `(1 - 9*tn**2)` by
`eta ** 2`, where `parameter_set_2` set eta to nu/rho - 1. -/
noncomputable def VIII_code (rho nu eta tn : ℝ) : ℝ :=
  tn / (24*rho*nu^3) * (5 + 3*tn^2 + eta^2 * (1 - 9*tn^2))

/-- Modelled from the spec: the latitude correction term
`VIII = tan/(24 rho nu^3) * (5 + 3 tan^2 + eta2 * (1 - 9 tan^2))` in which
the multiplier of `(1 - 9 tan^2)` is `eta2 = nu/rho - 1` itself. -/
noncomputable def VIII_spec (rho nu eta2 tn : ℝ) : ℝ :=
  tn / (24*rho*nu^3) * (5 + 3*tn^2 + eta2 * (1 - 9*tn^2))

/-- Embeds osgconv.py lines 139-153: the series correction stage, mapping
the footpoint latitude `prime` and the easting `E` to the final
(latitude, longitude) pair in degrees. -/
noncomputable def seriesOut (E prime : ℝ) : ℝ × ℝ :=
  let p2 := parameter_set_2 prime aBNG F0BNG e2BNG
  let nu := p2.1
  let rho := p2.2.1
  let eta := p2.2.2
  let tn := Real.tan prime
  let sc := 1 / Real.cos prime
  let c1 := tn / (2*rho*nu)
  let c2 := VIII_code rho nu eta tn
  let c3 := tn / (720*rho*nu^5) * (61 + tn^2*(90 + 45*tn^2))
  let d1 := sc / nu
  let d2 := sc / (6*nu^3) * (nu/rho + 2*tn^2)
  let d3 := sc / (120*nu^5) * (5 + tn^2*(28 + 24*tn^2))
  let d4 := sc / (5040*nu^7) * (61 + tn^2*(662 + tn^2*(1320 + tn^2*720)))
  let ED := E - E0BNG
  (degrees (prime + ED^2 * (-c1 + ED^2*(c2 - c3*ED^2))),
   degrees (lam0BNG + ED * (d1 + ED^2*(-d2 + ED^2*(d3 - d4*ED^2)))))

/-- Embeds `BNG_2_latlon` (osgconv.py lines 102-154), with fuel for the
footpoint loop. -/
noncomputable def BNG_2_latlon (fuel : ℕ) (E N : ℝ) : Option (ℝ × ℝ) :=
  (footpointGo N N0BNG (aBNG * F0BNG) phi0BNG nBNG bBNG F0BNG fuel
    (0, phi0BNG)).map (seriesOut E)

/-- Modelled from the spec: the meridional arc series
`M(phi, phi0, n, b, F0)` of spec section 4.2. -/
noncomputable def M_spec (phi phi0 n b F0 : ℝ) : ℝ :=
  b * F0 * ((1 + n + 5/4*n^2 + 5/4*n^3) * (phi - phi0)
    - (3*n + 3*n^2 + 21/8*n^3) * Real.sin (phi - phi0) * Real.cos (phi + phi0)
    + 15/8 * (n^2 + n^3) * Real.sin (2*(phi - phi0)) * Real.cos (2*(phi + phi0))
    - 35/24 * n^3 * Real.sin (3*(phi - phi0)) * Real.cos (3*(phi + phi0)))

/-- Modelled from the spec (section 4.2): one fixed-point pass per unit of
fuel — while the residual is at least 1e-5, step `phi_candidate` by
`(northing - northing0 - M)/(a F0)` and recompute M by the series; stop
when the residual is below 1e-5. -/
noncomputable def footpointSpecGo (N N0 a F0 phi0 n b : ℝ) : ℕ → ℝ × ℝ → Option ℝ
  | 0, _ => none
  | fuel + 1, s =>
    if 1e-5 ≤ |N - N0 - s.1| then
      footpointSpecGo N N0 a F0 phi0 n b fuel
        (M_spec (s.2 + (N - N0 - s.1) / (a * F0)) phi0 n b F0,
         s.2 + (N - N0 - s.1) / (a * F0))
    else some s.2

/-- Modelled from the spec: the full footpoint solve of section 4.2,
initialised with M = 0 and phi_candidate = phi0. -/
noncomputable def footpointSpec (N N0 a F0 phi0 n b : ℝ) (fuel : ℕ) : Option ℝ :=
  footpointSpecGo N N0 a F0 phi0 n b fuel (0, phi0)

/-- Modelled from the spec (section 4.1):
`derive(a, b) = ((a^2 - b^2)/a^2, (a - b)/(a + b))`. -/
noncomputable def derive_spec (a b : ℝ) : ℝ × ℝ :=
  ((a ^ 2 - b ^ 2) / a ^ 2, (a - b) / (a + b))

lemma footpointGo_eq_specGo (N N0 a F0 phi0 n b : ℝ) :
    ∀ (fuel : ℕ) (s : ℝ × ℝ),
      footpointGo N N0 (a * F0) phi0 n b F0 fuel s
        = footpointSpecGo N N0 a F0 phi0 n b fuel s := by
  intro fuel
  induction fuel with
  | zero => intro s; rfl
  | succ k ih =>
    intro s
    rw [footpointGo, footpointSpecGo]
    rcases lt_or_le (|N - N0 - s.1|) (1e-5) with h | h
    · rw [if_pos h, if_neg (not_le.mpr h)]
    · rw [if_neg (not_lt.mpr h), if_pos h]
      rw [ih]
      have harg : (N - N0 - s.1) / (a * F0) + s.2
          = s.2 + (N - N0 - s.1) / (a * F0) := add_comm _ _
      rw [harg]
      rfl

/-- Claim C2: the footpoint solver implemented by the code is exactly the
fixed-point iteration stated in the spec: same initial state (M = 0,
phi_candidate = phi0), same update of phi_candidate, M recomputed by the
same four-term meridional-arc series, and the loop stopping precisely when
the residual drops below 1e-5. -/
theorem footpoint_matches_spec (N N0 a F0 phi0 n b : ℝ) (fuel : ℕ) :
    footpointGo N N0 (a * F0) phi0 n b F0 fuel (0, phi0)
      = footpointSpec N N0 a F0 phi0 n b fuel :=
  footpointGo_eq_specGo N N0 a F0 phi0 n b fuel (0, phi0)

/-- Claim C5: for every pair of axes with a > b > 0, `parameter_set_1`
returns exactly the spec formulas (a^2 - b^2)/a^2 and (a - b)/(a + b),
with no iteration and no failure branch. -/
theorem parameter_set_1_correct (a b : ℝ) (hb : 0 < b) (hab : b < a) :
    parameter_set_1 a b = derive_spec a b := rfl

/-- Witness for C5 at the concrete axes a = 2, b = 1. -/
theorem parameter_set_1_correct_witness :
    (0:ℝ) < 1 ∧ (1:ℝ) < 2 ∧ parameter_set_1 2 1 = derive_spec 2 1 :=
  ⟨by norm_num, by norm_num, parameter_set_1_correct 2 1 (by norm_num) (by norm_num)⟩

/-- Claim C7 counterexample: with axes a = 1 and b = 2 (so a ≤ b) the code
raises nothing: `parameter_set_1` simply evaluates its two formulas,
returning (-3, -1/3).  No InvalidEllipsoid check exists anywhere in the
source. -/
theorem no_ellipsoid_validation_cex : parameter_set_1 1 2 = (-3, -(1/3)) := by
  norm_num [parameter_set_1]

/-- Claim C7 amended: the code performs no ellipsoid validation at all:
`parameter_set_1` is total and returns its two formulas for every input,
including a ≤ b and non-positive axes, and the source defines no
InvalidEllipsoid error. -/
theorem parameter_set_1_total (a b : ℝ) :
    parameter_set_1 a b = ((a ^ 2 - b ^ 2) / a ^ 2, (a - b) / (a + b)) := rfl

/-- Claim C1 (code bug): the implemented term `c2` multiplies
`(1 - 9 tan^2)` by the SQUARE of the quantity nu/rho - 1 that the source
itself computes, whereas the spec formula VIII (and the Ordnance Survey
guide the module docstring cites, in which eta SQUARED is nu/rho - 1)
multiplies it by nu/rho - 1 itself.  At rho = nu = 1, eta2 = 1/100,
tan = 1 the two terms differ. -/
theorem VIII_code_ne_spec : VIII_code 1 1 (1/100) 1 ≠ VIII_spec 1 1 (1/100) 1 := by
  norm_num [VIII_code, VIII_spec]

/-- Claim C9: the conversion is deterministic — it is a pure function of
the easting, the northing and the fuel, reading no hidden state: calls on
equal inputs return equal outputs. -/
theorem BNG_2_latlon_deterministic (fuel : ℕ) (E N E2 N2 : ℝ)
    (hE : E = E2) (hN : N = N2) :
    BNG_2_latlon fuel E N = BNG_2_latlon fuel E2 N2 := by
  rw [hE, hN]

/-- Witness for C9 at a concrete repeated input. -/
theorem BNG_2_latlon_deterministic_witness :
    BNG_2_latlon 1 400000 (-100000) = BNG_2_latlon 1 400000 (-100000) :=
  BNG_2_latlon_deterministic 1 400000 (-100000) 400000 (-100000) rfl rfl

lemma degrees_radians (x : ℝ) : degrees (radians x) = x := by
  unfold degrees radians
  have h := Real.pi_ne_zero
  field_simp

lemma f_M_self (phi0 n b F : ℝ) : f_M phi0 phi0 n b F = 0 := by
  unfold f_M
  norm_num

lemma footpointGo_origin (fuel : ℕ) :
    footpointGo (-100000) N0BNG (aBNG * F0BNG) phi0BNG nBNG bBNG F0BNG
      (fuel + 1) (0, phi0BNG) = some phi0BNG := by
  rw [footpointGo, if_pos]
  norm_num [N0BNG]

lemma seriesOut_origin : seriesOut 400000 phi0BNG = (49, -2) := by
  unfold seriesOut
  simp only [E0BNG]
  norm_num
  constructor
  · exact degrees_radians 49
  · exact degrees_radians (-2)

lemma BNG_origin (fuel : ℕ) :
    BNG_2_latlon (fuel + 1) 400000 (-100000) = some (49, -2) := by
  unfold BNG_2_latlon
  rw [footpointGo_origin, Option.map_some', seriesOut_origin]

/-- Claim C4: converting the grid coordinate of the true origin returns
exactly the origin latitude and longitude in degrees: the residual at entry
is already zero, so the solver exits at its first test with the origin
latitude, and with dE = 0 every correction series term vanishes. -/
theorem origin_identity (fuel : ℕ) :
    BNG_2_latlon (fuel + 1) 400000 (-100000) = some (49, -2) :=
  BNG_origin fuel

lemma seriesOut_lat_even (d q : ℝ) :
    (seriesOut (400000 + d) q).1 = (seriesOut (400000 - d) q).1 := by
  simp only [seriesOut, E0BNG]
  congr 1
  ring

lemma seriesOut_lon_sum (d q : ℝ) :
    (seriesOut (400000 + d) q).2 + (seriesOut (400000 - d) q).2 = -4 := by
  simp only [seriesOut, E0BNG, degrees]
  have hpi := Real.pi_ne_zero
  have hlam : lam0BNG = -2 * Real.pi / 180 := by
    unfold lam0BNG radians; ring
  rw [hlam]
  field_simp
  ring

/-- Claim C10: the output latitude is an even function of the easting
offset and the output longitude is odd about the origin longitude: if the
conversion returns at both (400000 + d, N) and (400000 - d, N), the two
latitudes are equal and the two longitudes sum to twice the origin
longitude, -4 degrees. -/
theorem easting_symmetry (fuel : ℕ) (d N lat1 lon1 lat2 lon2 : ℝ)
    (h1 : BNG_2_latlon fuel (400000 + d) N = some (lat1, lon1))
    (h2 : BNG_2_latlon fuel (400000 - d) N = some (lat2, lon2)) :
    lat1 = lat2 ∧ lon1 + lon2 = -4 := by
  unfold BNG_2_latlon at h1 h2
  cases hf : footpointGo N N0BNG (aBNG * F0BNG) phi0BNG nBNG bBNG F0BNG fuel
      (0, phi0BNG) with
  | none => rw [hf] at h1; exact absurd h1 (by simp)
  | some q =>
    rw [hf, Option.map_some'] at h1 h2
    have e1 : seriesOut (400000 + d) q = (lat1, lon1) := Option.some.inj h1
    have e2 : seriesOut (400000 - d) q = (lat2, lon2) := Option.some.inj h2
    constructor
    · have h := seriesOut_lat_even d q
      rw [e1, e2] at h
      exact h
    · have h := seriesOut_lon_sum d q
      rw [e1, e2] at h
      exact h

/-- Witness for C10 at d = 0, N = -100000 (the origin), where both runs
provably return. -/
theorem easting_symmetry_witness : (49:ℝ) = 49 ∧ (-2:ℝ) + -2 = -4 :=
  easting_symmetry 1 0 (-100000) 49 (-2) 49 (-2)
    (by rw [show (400000:ℝ) + 0 = 400000 by norm_num]; exact BNG_origin 0)
    (by rw [show (400000:ℝ) - 0 = 400000 by norm_num]; exact BNG_origin 0)

lemma sin_diff_le (x y : ℝ) : |Real.sin x - Real.sin y| ≤ |x - y| := by
  rw [Real.sin_sub_sin]
  have h1 : |Real.sin ((x - y)/2)| ≤ |(x - y)/2| := Real.abs_sin_le_abs
  have h2 : |Real.cos ((x + y)/2)| ≤ 1 :=
    abs_le.mpr ⟨Real.neg_one_le_cos _, Real.cos_le_one _⟩
  have h3 : |(x - y)/2| = |x - y|/2 := by rw [abs_div, abs_two]
  rw [h3] at h1
  have h4 : (0:ℝ) ≤ |Real.sin ((x - y)/2)| := abs_nonneg _
  have h5 : (0:ℝ) ≤ |Real.cos ((x + y)/2)| := abs_nonneg _
  rw [abs_mul, abs_mul, abs_two]
  nlinarith [abs_nonneg (x - y)]

lemma cos_diff_le (x y : ℝ) : |Real.cos x - Real.cos y| ≤ |x - y| := by
  rw [Real.cos_sub_cos]
  have h1 : |Real.sin ((x - y)/2)| ≤ |(x - y)/2| := Real.abs_sin_le_abs
  have h2 : |Real.sin ((x + y)/2)| ≤ 1 :=
    abs_le.mpr ⟨Real.neg_one_le_sin _, Real.sin_le_one _⟩
  have h3 : |(x - y)/2| = |x - y|/2 := by rw [abs_div, abs_two]
  rw [h3] at h1
  have h4 : (0:ℝ) ≤ |Real.sin ((x - y)/2)| := abs_nonneg _
  have h5 : (0:ℝ) ≤ |Real.sin ((x + y)/2)| := abs_nonneg _
  rw [abs_mul, abs_mul]
  have habs2 : |(-2 : ℝ)| = 2 := by norm_num
  rw [habs2]
  nlinarith [abs_nonneg (x - y)]

lemma sincos_prod_diff (x y u v : ℝ) :
    |Real.sin x * Real.cos y - Real.sin u * Real.cos v| ≤ |x - u| + |y - v| := by
  have key : Real.sin x * Real.cos y - Real.sin u * Real.cos v
      = (Real.sin x - Real.sin u) * Real.cos y
        + Real.sin u * (Real.cos y - Real.cos v) := by ring
  rw [key]
  calc |(Real.sin x - Real.sin u) * Real.cos y
        + Real.sin u * (Real.cos y - Real.cos v)|
      ≤ |(Real.sin x - Real.sin u) * Real.cos y|
        + |Real.sin u * (Real.cos y - Real.cos v)| := abs_add _ _
    _ = |Real.sin x - Real.sin u| * |Real.cos y|
        + |Real.sin u| * |Real.cos y - Real.cos v| := by rw [abs_mul, abs_mul]
    _ ≤ |x - u| * 1 + 1 * |y - v| := by
        apply add_le_add
        · exact mul_le_mul (sin_diff_le x u)
            (abs_le.mpr ⟨Real.neg_one_le_cos _, Real.cos_le_one _⟩)
            (abs_nonneg _) (abs_nonneg _)
        · exact mul_le_mul (abs_le.mpr ⟨Real.neg_one_le_sin _, Real.sin_le_one _⟩)
            (cos_diff_le y v) (abs_nonneg _) (by norm_num)
    _ = |x - u| + |y - v| := by ring

lemma nBNG_eq : nBNG = 21306487/12733820305 := by
  norm_num [nBNG, parameter_set_1, aBNG, bBNG]

lemma step_contract (N p : ℝ) :
    |N - N0BNG - f_M ((N - N0BNG - f_M p phi0BNG nBNG bBNG F0BNG) / (aBNG * F0BNG) + p)
        phi0BNG nBNG bBNG F0BNG|
      ≤ 1/85 * |N - N0BNG - f_M p phi0BNG nBNG bBNG F0BNG| := by
  set r := N - N0BNG - f_M p phi0BNG nBNG bBNG F0BNG with hr
  set x := r / (aBNG * F0BNG) + p with hx
  have hApos : (0:ℝ) < aBNG * F0BNG := by norm_num [aBNG, F0BNG]
  set s1 := Real.sin (x - phi0BNG) * Real.cos (x + phi0BNG)
          - Real.sin (p - phi0BNG) * Real.cos (p + phi0BNG) with hs1
  set s2 := Real.sin (2*(x - phi0BNG)) * Real.cos (2*(x + phi0BNG))
          - Real.sin (2*(p - phi0BNG)) * Real.cos (2*(p + phi0BNG)) with hs2
  set s3 := Real.sin (3*(x - phi0BNG)) * Real.cos (3*(x + phi0BNG))
          - Real.sin (3*(p - phi0BNG)) * Real.cos (3*(p + phi0BNG)) with hs3
  have hb1 : |s1| ≤ 2 * (|r| / (aBNG * F0BNG)) := by
    have h := sincos_prod_diff (x - phi0BNG) (x + phi0BNG) (p - phi0BNG) (p + phi0BNG)
    have e1 : x - phi0BNG - (p - phi0BNG) = r / (aBNG * F0BNG) := by rw [hx]; ring
    have e2 : x + phi0BNG - (p + phi0BNG) = r / (aBNG * F0BNG) := by rw [hx]; ring
    rw [e1, e2, abs_div, abs_of_pos hApos] at h
    rw [← hs1] at h
    linarith
  have hb2 : |s2| ≤ 4 * (|r| / (aBNG * F0BNG)) := by
    have h := sincos_prod_diff (2*(x - phi0BNG)) (2*(x + phi0BNG))
      (2*(p - phi0BNG)) (2*(p + phi0BNG))
    have e1 : 2*(x - phi0BNG) - 2*(p - phi0BNG) = 2 * (r / (aBNG * F0BNG)) := by
      rw [hx]; ring
    have e2 : 2*(x + phi0BNG) - 2*(p + phi0BNG) = 2 * (r / (aBNG * F0BNG)) := by
      rw [hx]; ring
    rw [e1, e2, abs_mul, abs_two, abs_div, abs_of_pos hApos] at h
    rw [← hs2] at h
    linarith
  have hb3 : |s3| ≤ 6 * (|r| / (aBNG * F0BNG)) := by
    have h := sincos_prod_diff (3*(x - phi0BNG)) (3*(x + phi0BNG))
      (3*(p - phi0BNG)) (3*(p + phi0BNG))
    have e1 : 3*(x - phi0BNG) - 3*(p - phi0BNG) = 3 * (r / (aBNG * F0BNG)) := by
      rw [hx]; ring
    have e2 : 3*(x + phi0BNG) - 3*(p + phi0BNG) = 3 * (r / (aBNG * F0BNG)) := by
      rw [hx]; ring
    have habs3 : |(3:ℝ)| = 3 := by norm_num
    rw [e1, e2, abs_mul, habs3, abs_div, abs_of_pos hApos] at h
    rw [← hs3] at h
    linarith
  have hexp : N - N0BNG - f_M x phi0BNG nBNG bBNG F0BNG
      = (1 - bBNG * F0BNG * (1 + nBNG + 5/4*nBNG^2 + 5/4*nBNG^3) / (aBNG * F0BNG)) * r
        + bBNG * F0BNG * ((3*nBNG + 3*nBNG^2 + 21/8*nBNG^3) * s1
          - 15/8 * (nBNG^2 + nBNG^3) * s2 + 35/24 * nBNG^3 * s3) := by
    have hfx : f_M x phi0BNG nBNG bBNG F0BNG - f_M p phi0BNG nBNG bBNG F0BNG
        = bBNG * F0BNG
          * ((1 + nBNG + 5/4*nBNG^2 + 5/4*nBNG^3) * (r / (aBNG * F0BNG))
            - (3*nBNG + 3*nBNG^2 + 21/8*nBNG^3) * s1
            + 15/8 * (nBNG^2 + nBNG^3) * s2
            - 35/24 * nBNG^3 * s3) := by
      rw [hs1, hs2, hs3]
      unfold f_M
      rw [hx]
      ring
    have hNx : N - N0BNG - f_M x phi0BNG nBNG bBNG F0BNG
        = r - (f_M x phi0BNG nBNG bBNG F0BNG - f_M p phi0BNG nBNG bBNG F0BNG) := by
      rw [hr]; ring
    rw [hNx, hfx]
    ring
  rw [hexp, nBNG_eq]
  simp only [aBNG, bBNG, F0BNG] at hb1 hb2 hb3 ⊢
  rcases abs_le.mp hb1 with ⟨l1, u1⟩
  rcases abs_le.mp hb2 with ⟨l2, u2⟩
  rcases abs_le.mp hb3 with ⟨l3, u3⟩
  have hru : r ≤ |r| := le_abs_self r
  have hrl : -|r| ≤ r := neg_abs_le r
  rw [abs_le]
  constructor
  · norm_num at l1 u1 l2 u2 l3 u3 ⊢
    linarith
  · norm_num at l1 u1 l2 u2 l3 u3 ⊢
    linarith

lemma footpointGo_some (N : ℝ) :
    ∀ (fuel : ℕ) (s : ℝ × ℝ) (q : ℝ),
      footpointGo N N0BNG (aBNG * F0BNG) phi0BNG nBNG bBNG F0BNG fuel s = some q →
      (|N - N0BNG - s.1| < 1e-5 ∧ q = s.2)
        ∨ |N - N0BNG - f_M q phi0BNG nBNG bBNG F0BNG| < 1e-5 := by
  intro fuel
  induction fuel with
  | zero =>
    intro s q h
    exact absurd h (by rw [footpointGo]; exact Option.noConfusion)
  | succ k ih =>
    intro s q h
    rw [footpointGo] at h
    by_cases hc : |N - N0BNG - s.1| < 1e-5
    · rw [if_pos hc] at h
      exact Or.inl ⟨hc, (Option.some.inj h).symm⟩
    · rw [if_neg hc] at h
      rcases ih _ _ h with ⟨hlt, hq⟩ | hq
      · right
        rw [hq]
        exact hlt
      · right
        exact hq

lemma footpointGo_exits (N : ℝ) :
    ∀ (fuel : ℕ) (p : ℝ),
      |N - N0BNG - f_M p phi0BNG nBNG bBNG F0BNG| ≤ 9/1000000 * 85 ^ fuel →
      ∃ q, footpointGo N N0BNG (aBNG * F0BNG) phi0BNG nBNG bBNG F0BNG (fuel + 1)
          (f_M p phi0BNG nBNG bBNG F0BNG, p) = some q := by
  intro fuel
  induction fuel with
  | zero =>
    intro p hp
    refine ⟨p, ?_⟩
    rw [footpointGo, if_pos]
    have : (9:ℝ)/1000000 * 85 ^ 0 < 1e-5 := by norm_num
    calc |N - N0BNG - (f_M p phi0BNG nBNG bBNG F0BNG, p).1|
        ≤ 9/1000000 * 85 ^ 0 := hp
      _ < 1e-5 := this
  | succ k ih =>
    intro p hp
    by_cases hc : |N - N0BNG - f_M p phi0BNG nBNG bBNG F0BNG| < 1e-5
    · exact ⟨p, by rw [footpointGo, if_pos hc]⟩
    · have hstep := step_contract N p
      have hnext : |N - N0BNG
          - f_M ((N - N0BNG - f_M p phi0BNG nBNG bBNG F0BNG) / (aBNG * F0BNG) + p)
              phi0BNG nBNG bBNG F0BNG| ≤ 9/1000000 * 85 ^ k := by
        have hpow : (85:ℝ) ^ (k + 1) = 85 * 85 ^ k := by ring
        rw [hpow] at hp
        nlinarith [hstep, hp]
      obtain ⟨q, hq⟩ :=
        ih ((N - N0BNG - f_M p phi0BNG nBNG bBNG F0BNG) / (aBNG * F0BNG) + p) hnext
      refine ⟨q, ?_⟩
      rw [footpointGo, if_neg hc]
      exact hq

lemma BNG_exits (E N : ℝ) (fuel : ℕ)
    (h : |N - N0BNG| ≤ 9/1000000 * 85 ^ fuel) :
    ∃ pr, BNG_2_latlon (fuel + 1) E N = some pr := by
  have h0 : f_M phi0BNG phi0BNG nBNG bBNG F0BNG = 0 :=
    f_M_self phi0BNG nBNG bBNG F0BNG
  obtain ⟨q, hq⟩ := footpointGo_exits N fuel phi0BNG (by rw [h0, sub_zero]; exact h)
  refine ⟨seriesOut E q, ?_⟩
  unfold BNG_2_latlon
  rw [show ((0:ℝ), phi0BNG) = (f_M phi0BNG phi0BNG nBNG bBNG F0BNG, phi0BNG) by
    rw [h0], hq, Option.map_some']

/-- Claim C8: while the footpoint residual is still at or above the 1e-5
tolerance, one pass of the loop body (update prime, recompute M by f_M)
strictly decreases it: the update is, in exact real arithmetic, a
contraction with factor at most 1/85 for every northing, so the residual
strictly decreases on every iteration until it falls below tolerance. -/
theorem residual_strict_decrease (N p : ℝ)
    (h : 1e-5 ≤ |N - N0BNG - f_M p phi0BNG nBNG bBNG F0BNG|) :
    |N - N0BNG - f_M ((N - N0BNG - f_M p phi0BNG nBNG bBNG F0BNG) / (aBNG * F0BNG) + p)
        phi0BNG nBNG bBNG F0BNG|
      < |N - N0BNG - f_M p phi0BNG nBNG bBNG F0BNG| := by
  have hc := step_contract N p
  have hpos : (0:ℝ) < |N - N0BNG - f_M p phi0BNG nBNG bBNG F0BNG| :=
    lt_of_lt_of_le (by norm_num) h
  nlinarith [hc, hpos]

/-- Witness for C8 at the loop entry state for northing 623009, where the
residual is 723009. -/
theorem residual_strict_decrease_witness :
    |(623009:ℝ) - N0BNG
        - f_M (((623009:ℝ) - N0BNG - f_M phi0BNG phi0BNG nBNG bBNG F0BNG)
            / (aBNG * F0BNG) + phi0BNG) phi0BNG nBNG bBNG F0BNG|
      < |(623009:ℝ) - N0BNG - f_M phi0BNG phi0BNG nBNG bBNG F0BNG| :=
  residual_strict_decrease 623009 phi0BNG
    (by rw [f_M_self, sub_zero]; rw [show N0BNG = -100000 from rfl]; norm_num)

/-- The cap-enforcement behaviour that the claim asserts, at the far-out
northing N0 + 10^12 = 999999900000: within an iteration cap of at most 20,
the conversion yields no geodetic result (the claim says it raises
ConvergenceError instead of returning one). -/
def rejectsFarNorthing : Prop :=
  ∀ fuel, fuel ≤ 20 → BNG_2_latlon fuel 429157 999999900000 = none

/-- Claim C3 counterexample: the code has no iteration cap and defines no
ConvergenceError.  In exact arithmetic its loop is a contraction with
factor at most 1/85, so at the northing N0 + 10^12 it meets the 1e-5
tolerance within 10 residual tests and returns a (wildly out-of-range)
latitude/longitude pair instead of failing. -/
theorem cap_enforcement_cex : ¬ rejectsFarNorthing := by
  intro h
  obtain ⟨pr, hpr⟩ := BNG_exits 429157 999999900000 9
    (by rw [show N0BNG = -100000 from rfl]; norm_num)
  have h10 := h 10 (by norm_num)
  rw [show (9:ℕ) + 1 = 10 from rfl, h10] at hpr
  exact Option.noConfusion hpr

/-- Claim C3 amended: the reference loop has no iteration cap and no error
path at all; at northing N0 + 10^12 the exact-arithmetic iteration
converges — within 10 residual tests it meets the 1e-5 tolerance and the
conversion returns a result rather than raising anything. -/
theorem cap_enforcement_amended :
    ∃ pr, BNG_2_latlon 10 429157 999999900000 = some pr := by
  obtain ⟨pr, hpr⟩ := BNG_exits 429157 999999900000 9
    (by rw [show N0BNG = -100000 from rfl]; norm_num)
  exact ⟨pr, by rw [show (10:ℕ) = 9 + 1 from rfl]; exact hpr⟩

lemma abs_sincos_le_one (x y : ℝ) : |Real.sin x * Real.cos y| ≤ 1 := by
  rw [abs_mul]
  have h1 : |Real.sin x| ≤ 1 := abs_le.mpr ⟨Real.neg_one_le_sin x, Real.sin_le_one x⟩
  have h2 : |Real.cos y| ≤ 1 := abs_le.mpr ⟨Real.neg_one_le_cos y, Real.cos_le_one y⟩
  nlinarith [abs_nonneg (Real.sin x), abs_nonneg (Real.cos y)]

lemma phi0BNG_bounds : 0.8552111 ≤ phi0BNG ∧ phi0BNG ≤ 0.8552115 := by
  unfold phi0BNG radians
  constructor
  · nlinarith [Real.pi_gt_d6]
  · nlinarith [Real.pi_lt_d6]

lemma footpoint_localize (q : ℝ)
    (h : |(623009:ℝ) - N0BNG - f_M q phi0BNG nBNG bBNG F0BNG| < 1e-5) :
    0.9637 ≤ q ∧ q ≤ 0.9739 := by
  rw [show N0BNG = -100000 from rfl] at h
  rcases abs_lt.mp h with ⟨hl, hu⟩
  have hfm : f_M q phi0BNG nBNG bBNG F0BNG
      = bBNG * F0BNG * ((1 + nBNG + 5/4*nBNG^2 + 5/4*nBNG^3) * (q - phi0BNG)
        - (3*nBNG + 3*nBNG^2 + 21/8*nBNG^3)
          * (Real.sin (q - phi0BNG) * Real.cos (q + phi0BNG))
        + 15/8 * (nBNG^2 + nBNG^3)
          * (Real.sin (2*(q - phi0BNG)) * Real.cos (2*(q + phi0BNG)))
        - 35/24 * nBNG^3
          * (Real.sin (3*(q - phi0BNG)) * Real.cos (3*(q + phi0BNG)))) := by
    unfold f_M; ring
  rw [hfm, nBNG_eq] at hl hu
  simp only [bBNG, F0BNG] at hl hu
  obtain ⟨hp1, hp2⟩ := phi0BNG_bounds
  rcases abs_le.mp (abs_sincos_le_one (q - phi0BNG) (q + phi0BNG)) with ⟨a1l, a1u⟩
  rcases abs_le.mp (abs_sincos_le_one (2*(q - phi0BNG)) (2*(q + phi0BNG))) with ⟨a2l, a2u⟩
  rcases abs_le.mp (abs_sincos_le_one (3*(q - phi0BNG)) (3*(q + phi0BNG))) with ⟨a3l, a3u⟩
  norm_num at hl hu
  constructor
  · linarith
  · linarith

lemma seriesOut_lat_bounds (q : ℝ) (h1 : 0.9637 ≤ q) (h2 : q ≤ 0.9739) :
    55 ≤ (seriesOut 429157 q).1 ∧ (seriesOut 429157 q).1 ≤ 56 := by
  have hq0 : (0:ℝ) ≤ q := by linarith only [h1]
  have hqpi : q ≤ Real.pi := by nlinarith only [Real.pi_gt_d6, h2]
  have hsin0 : 0 ≤ Real.sin q := Real.sin_nonneg_of_nonneg_of_le_pi hq0 hqpi
  have hsin1 : Real.sin q ≤ 1 := Real.sin_le_one q
  have hcos : (0.5257:ℝ) ≤ Real.cos q := by
    nlinarith only [Real.one_sub_sq_div_two_le_cos (x := q), h1, h2, hq0]
  have hcospos : (0:ℝ) < Real.cos q := by linarith only [hcos]
  have htanl : 0 ≤ Real.tan q := by
    rw [Real.tan_eq_sin_div_cos]
    exact div_nonneg hsin0 hcospos.le
  have htanu : Real.tan q ≤ 2 := by
    rw [Real.tan_eq_sin_div_cos, div_le_iff hcospos]
    nlinarith only [hsin1, hcos]
  have he2l : (0.00667:ℝ) ≤ e2BNG := by
    norm_num [e2BNG, parameter_set_1, aBNG, bBNG]
  have he2u : e2BNG ≤ 0.006671 := by
    norm_num [e2BNG, parameter_set_1, aBNG, bBNG]
  have hsq : Real.sin q ^ 2 ≤ 1 := by nlinarith only [hsin0, hsin1]
  have hsq0 : 0 ≤ Real.sin q ^ 2 := sq_nonneg _
  have hXl : (0.9933:ℝ) ≤ 1 - e2BNG * Real.sin q ^ 2 := by
    nlinarith only [he2l, he2u, hsq, hsq0]
  have hXu : 1 - e2BNG * Real.sin q ^ 2 ≤ 1 := by
    nlinarith only [he2l, hsq0]
  have hX0 : (0:ℝ) ≤ 1 - e2BNG * Real.sin q ^ 2 := by linarith only [hXl]
  have hsu : Real.sqrt (1 - e2BNG * Real.sin q ^ 2) ≤ 1 := Real.sqrt_le_one.mpr hXu
  have hsl : (0.9966:ℝ) ≤ Real.sqrt (1 - e2BNG * Real.sin q ^ 2) := by
    rw [Real.le_sqrt (by norm_num) hX0]
    nlinarith only [hXl]
  have hspos : (0:ℝ) < Real.sqrt (1 - e2BNG * Real.sin q ^ 2) := by linarith only [hsl]
  have hs3l : (0.9898:ℝ) ≤ Real.sqrt (1 - e2BNG * Real.sin q ^ 2) ^ 3 := by
    have hp := pow_le_pow_left (by norm_num : (0:ℝ) ≤ 0.9966) hsl 3
    have he : (0.9966:ℝ) ^ 3 = 0.989834640696 := by norm_num
    rw [he] at hp
    linarith only [hp]
  have hs3u : Real.sqrt (1 - e2BNG * Real.sin q ^ 2) ^ 3 ≤ 1 := by
    have hp := pow_le_pow_left hspos.le hsu 3
    simpa using hp
  have hs3pos : (0:ℝ) < Real.sqrt (1 - e2BNG * Real.sin q ^ 2) ^ 3 := by
    linarith only [hs3l]
  simp only [seriesOut, parameter_set_2, VIII_code]
  rw [show (429157:ℝ) - E0BNG = 29157 by norm_num [E0BNG]]
  simp only [aBNG, bBNG, F0BNG]
  set s := Real.sqrt (1 - e2BNG * Real.sin q ^ 2) with hsdef
  set nu := (6377563.396:ℝ) * 0.9996012717 / s with hnudef
  set rho := (6377563.396:ℝ) * 0.9996012717 * (1 - e2BNG) / s ^ 3 with hrhodef
  set eta := nu / rho - 1 with hetadef
  set tn := Real.tan q with htndef
  have hnul : (6375020:ℝ) ≤ nu := by
    rw [hnudef, le_div_iff hspos]
    nlinarith only [hsu, hspos]
  have hnuu : nu ≤ 6397500 := by
    rw [hnudef, div_le_iff hspos]
    nlinarith only [hsl]
  have hnupos : (0:ℝ) < nu := by linarith only [hnul]
  have hrhol : (6332000:ℝ) ≤ rho := by
    rw [hrhodef, le_div_iff hs3pos]
    nlinarith only [hs3u, he2u]
  have hrhou : rho ≤ 6400000 := by
    rw [hrhodef, div_le_iff hs3pos]
    nlinarith only [hs3l, he2l]
  have hrhopos : (0:ℝ) < rho := by linarith only [hrhol]
  have hetal : -(1:ℝ)/100 ≤ eta := by
    rw [hetadef]
    have h2r : (6375020:ℝ)/6400000 ≤ 6375020/rho :=
      div_le_div₀ (by norm_num) (le_refl _) hrhopos hrhou
    have h3r : (6375020:ℝ)/rho ≤ nu/rho :=
      div_le_div₀ (by linarith only [hnul]) hnul hrhopos (le_refl rho)
    have h4 : (6375020:ℝ)/6400000 ≤ nu/rho := le_trans h2r h3r
    nlinarith only [h4]
  have hetau : eta ≤ 104/10000 := by
    rw [hetadef]
    have h3r : nu/rho ≤ 6397500/rho :=
      div_le_div₀ (by norm_num) hnuu hrhopos (le_refl rho)
    have h2r : (6397500:ℝ)/rho ≤ 6397500/6332000 :=
      div_le_div₀ (by norm_num) (le_refl _) (by norm_num) hrhol
    have h4 : nu/rho ≤ (6397500:ℝ)/6332000 := le_trans h3r h2r
    nlinarith only [h4]
  have heta2 : eta^2 ≤ 11/100000 := by nlinarith only [hetal, hetau]
  clear_value tn eta rho nu s
  have hnup3 : (0:ℝ) < nu^3 := pow_pos hnupos 3
  have hnup5 : (0:ℝ) < nu^5 := pow_pos hnupos 5
  have hden1 : (0:ℝ) < 2*rho*nu := by nlinarith only [hrhopos, hnupos]
  have hden2 : (0:ℝ) < 24*rho*nu^3 := by nlinarith only [hrhopos, hnup3]
  have hden3 : (0:ℝ) < 720*rho*nu^5 := by nlinarith only [hrhopos, hnup5]
  have hc1u : tn/(2*rho*nu) ≤ 25/10^15 := by
    have hd : (2:ℝ)*6332000*6375020 ≤ 2*rho*nu := by
      nlinarith only [hrhol, hnul]
    have hq2 := div_le_div₀ (by norm_num : (0:ℝ) ≤ 2) htanu
      (by norm_num : (0:ℝ) < 2*6332000*6375020) hd
    calc tn/(2*rho*nu) ≤ 2/((2:ℝ)*6332000*6375020) := hq2
      _ ≤ 25/10^15 := by norm_num
  have hc1l : 0 ≤ tn/(2*rho*nu) := div_nonneg htanl hden1.le
  have hnu3 : (6375020:ℝ)^3 ≤ nu^3 := by
    have hp := pow_le_pow_left (by norm_num : (0:ℝ) ≤ 6375020) hnul 3
    simpa using hp
  have hnu5 : (6375020:ℝ)^5 ≤ nu^5 := by
    have hp := pow_le_pow_left (by norm_num : (0:ℝ) ≤ 6375020) hnul 5
    simpa using hp
  have htn2u : tn^2 ≤ 4 := by nlinarith only [htanl, htanu]
  have htn2l : 0 ≤ tn^2 := sq_nonneg tn
  have hinner2u : 5 + 3*tn^2 + eta^2 * (1 - 9*tn^2) ≤ 171/10 := by
    have hp1 : eta^2 * (1 - 9*tn^2) ≤ eta^2 * 1 := by
      apply mul_le_mul_of_nonneg_left _ (sq_nonneg eta)
      linarith only [htn2l]
    nlinarith only [hp1, heta2, htn2u]
  have hinner2l : 0 ≤ 5 + 3*tn^2 + eta^2 * (1 - 9*tn^2) := by
    have hp2 : eta^2 * (-35) ≤ eta^2 * (1 - 9*tn^2) := by
      apply mul_le_mul_of_nonneg_left _ (sq_nonneg eta)
      linarith only [htn2u]
    nlinarith only [hp2, heta2, htn2l]
  have hc2u : tn/(24*rho*nu^3) * (5 + 3*tn^2 + eta^2 * (1 - 9*tn^2)) ≤ 1/10^27 := by
    have hd : (24:ℝ)*6332000*6375020^3 ≤ 24*rho*nu^3 := by
      nlinarith only [hrhol, hnu3]
    have hfrac : tn/(24*rho*nu^3) ≤ 2/((24:ℝ)*6332000*6375020^3) :=
      div_le_div₀ (by norm_num) htanu (by norm_num) hd
    have hfl : 0 ≤ tn/(24*rho*nu^3) := div_nonneg htanl hden2.le
    calc tn/(24*rho*nu^3) * (5 + 3*tn^2 + eta^2 * (1 - 9*tn^2))
        ≤ (2/((24:ℝ)*6332000*6375020^3)) * (171/10) :=
          mul_le_mul hfrac hinner2u hinner2l (by norm_num)
      _ ≤ 1/10^27 := by norm_num
  have hc2l : 0 ≤ tn/(24*rho*nu^3) * (5 + 3*tn^2 + eta^2 * (1 - 9*tn^2)) :=
    mul_nonneg (div_nonneg htanl hden2.le) hinner2l
  have hinner3u : 61 + tn^2*(90 + 45*tn^2) ≤ 1141 := by
    nlinarith only [htn2l, htn2u]
  have hinner3l : (0:ℝ) ≤ 61 + tn^2*(90 + 45*tn^2) := by
    nlinarith only [htn2l]
  have hc3u : tn/(720*rho*nu^5) * (61 + tn^2*(90 + 45*tn^2)) ≤ 1/10^40 := by
    have hd : (720:ℝ)*6332000*6375020^5 ≤ 720*rho*nu^5 := by
      nlinarith only [hrhol, hnu5]
    have hfrac : tn/(720*rho*nu^5) ≤ 2/((720:ℝ)*6332000*6375020^5) :=
      div_le_div₀ (by norm_num) htanu (by norm_num) hd
    calc tn/(720*rho*nu^5) * (61 + tn^2*(90 + 45*tn^2))
        ≤ (2/((720:ℝ)*6332000*6375020^5)) * 1141 :=
          mul_le_mul hfrac hinner3u hinner3l (by norm_num)
      _ ≤ 1/10^40 := by norm_num
  have hc3l : 0 ≤ tn/(720*rho*nu^5) * (61 + tn^2*(90 + 45*tn^2)) :=
    mul_nonneg (div_nonneg htanl hden3.le) hinner3l
  have hcorru : (29157:ℝ)^2 * (-(tn/(2*rho*nu))
      + 29157^2*(tn/(24*rho*nu^3) * (5 + 3*tn^2 + eta^2 * (1 - 9*tn^2))
        - tn/(720*rho*nu^5) * (61 + tn^2*(90 + 45*tn^2))*29157^2)) ≤ 1/10^9 := by
    nlinarith only [hc1l, hc2u, hc3l]
  have hcorrl : -(23:ℝ)/10^6 ≤ (29157:ℝ)^2 * (-(tn/(2*rho*nu))
      + 29157^2*(tn/(24*rho*nu^3) * (5 + 3*tn^2 + eta^2 * (1 - 9*tn^2))
        - tn/(720*rho*nu^5) * (61 + tn^2*(90 + 45*tn^2))*29157^2)) := by
    nlinarith only [hc1u, hc2l, hc3u]
  constructor
  · unfold degrees
    rw [le_div_iff Real.pi_pos]
    nlinarith only [Real.pi_lt_d6, hcorrl, h1]
  · unfold degrees
    rw [div_le_iff Real.pi_pos]
    nlinarith only [Real.pi_gt_d6, hcorru, h2]

/-- Claim C6 amended: with the standard national-grid constants, converting
the grid coordinate (easting 429157, northing 623009) terminates (within 7
residual tests in exact arithmetic) and returns a latitude between 55 and
56 degrees — the point lies near 55.5 N, so the output is not within 1e-5
degrees of the claimed 52.657977. -/
theorem concrete_scenario_amended :
    ∃ pr, BNG_2_latlon 7 429157 623009 = some pr ∧ 55 ≤ pr.1 ∧ pr.1 ≤ 56 := by
  have h0 : f_M phi0BNG phi0BNG nBNG bBNG F0BNG = 0 :=
    f_M_self phi0BNG nBNG bBNG F0BNG
  obtain ⟨q, hq⟩ := footpointGo_exits 623009 6 phi0BNG
    (by rw [h0, sub_zero, show N0BNG = -100000 from rfl]; norm_num)
  have hloop : footpointGo 623009 N0BNG (aBNG * F0BNG) phi0BNG nBNG bBNG F0BNG 7
      (0, phi0BNG) = some q := by
    rw [show ((0:ℝ), phi0BNG) = (f_M phi0BNG phi0BNG nBNG bBNG F0BNG, phi0BNG) by
      rw [h0]]
    exact hq
  have hres : |(623009:ℝ) - N0BNG - f_M q phi0BNG nBNG bBNG F0BNG| < 1e-5 := by
    rcases footpointGo_some 623009 7 (0, phi0BNG) q hloop with ⟨habs, -⟩ | h
    · exfalso
      norm_num [N0BNG] at habs
    · exact h
  obtain ⟨hq1, hq2⟩ := footpoint_localize q hres
  obtain ⟨hb1, hb2⟩ := seriesOut_lat_bounds q hq1 hq2
  refine ⟨seriesOut 429157 q, ?_, hb1, hb2⟩
  unfold BNG_2_latlon
  rw [hloop, Option.map_some']

/-- The concrete scenario of the claim, as stated: the conversion of
(easting 429157, northing 623009) terminates and its output is within 1e-5
degrees of (latitude 52.657977, longitude 1.717922). -/
def claimedScenario : Prop :=
  ∃ fuel pr, BNG_2_latlon fuel 429157 623009 = some pr
    ∧ |pr.1 - 52.657977| ≤ 1e-5 ∧ |pr.2 - 1.717922| ≤ 1e-5

/-- Claim C6 counterexample: the claimed concrete scenario is false.  Any
terminating run of the conversion at (429157, 623009) has its footpoint
latitude pinned near 0.968 rad by the exit test, so the returned latitude
is at least 55 degrees — more than two degrees away from the claimed
52.657977 (which belongs to a different grid coordinate). -/
theorem concrete_scenario_cex : ¬ claimedScenario := by
  rintro ⟨fuel, pr, hB, hlat, -⟩
  unfold BNG_2_latlon at hB
  rcases Option.map_eq_some'.mp hB with ⟨q, hq, hpr⟩
  rcases footpointGo_some 623009 fuel (0, phi0BNG) q hq with ⟨habs, -⟩ | hres
  · norm_num [N0BNG] at habs
  · obtain ⟨hq1, hq2⟩ := footpoint_localize q hres
    have hb1 := (seriesOut_lat_bounds q hq1 hq2).1
    rw [← hpr] at hlat
    rcases abs_le.mp hlat with ⟨-, hr⟩
    linarith
